import Mathlib

/-!
Verification of the annotation / reconciliation / evaluation core of
`nlp_to_phenome.py` against its specification.

The Python classes are shallowly embedded: annotation objects become Lean
structures, mutation of performance records and label-model state becomes
explicit state passing, and code that would raise a Python exception
(`ZeroDivisionError`, subscripting `None`) returns `Option` values where the
error case is `none`.
-/

namespace NlpToPhenome

/-- Embeds `BasicAnn` (nlp_to_phenome.py, lines 107-157): a text span with
literal string, `start`/`end` character offsets and a container-assigned id.
The Python field `end` is called `end_` because `end` is a Lean keyword. -/
structure BasicAnn where
  str : String
  start : Int
  end_ : Int
  id : Int
deriving DecidableEq, Repr

/-- Embeds `BasicAnn.overlap` (lines 149-153):
`other_ann.start <= self.start <= other_ann.end or
 other_ann.start <= self.end <= other_ann.end`. -/
def BasicAnn.overlap (self other_ann : BasicAnn) : Bool :=
  if (other_ann.start ≤ self.start ∧ self.start ≤ other_ann.end_) ∨
      (other_ann.start ≤ self.end_ ∧ self.end_ ≤ other_ann.end_) then
    true
  else
    false

/-- Embeds `BasicAnn.is_larger` (lines 155-157):
`self.start <= other.start and self.end >= other.end and not (equal interval)`. -/
def BasicAnn.is_larger (self other_ann : BasicAnn) : Bool :=
  decide (self.start ≤ other_ann.start ∧ other_ann.end_ ≤ self.end_ ∧
    ¬(self.start = other_ann.start ∧ self.end_ = other_ann.end_))

theorem overlap_iff (a b : BasicAnn) :
    a.overlap b = true ↔
      (b.start ≤ a.start ∧ a.start ≤ b.end_) ∨ (b.start ≤ a.end_ ∧ a.end_ ≤ b.end_) := by
  unfold BasicAnn.overlap
  split <;> simp_all

theorem is_larger_iff (a b : BasicAnn) :
    a.is_larger b = true ↔
      a.start ≤ b.start ∧ b.end_ ≤ a.end_ ∧ ¬(a.start = b.start ∧ a.end_ = b.end_) := by
  unfold BasicAnn.is_larger
  simp only [decide_eq_true_eq]

/-- C1 counterexample: `overlap` as computed by `BasicAnn.overlap` is not
symmetric.  The span A = [0,10] and the span B = [2,3] both satisfy
`start <= end`, yet `A.overlap(B)` is false while `B.overlap(A)` is true
(A contains B strictly, so neither endpoint of A falls inside B). -/
theorem c1_counterexample :
    (BasicAnn.mk "a" 0 10 (-1)).overlap (BasicAnn.mk "b" 2 3 (-1)) = false ∧
    (BasicAnn.mk "b" 2 3 (-1)).overlap (BasicAnn.mk "a" 0 10 (-1)) = true ∧
    (0 : Int) ≤ 10 ∧ (2 : Int) ≤ 3 := by
  refine ⟨?_, ?_, by norm_num, by norm_num⟩ <;> decide

/-- C1 (amended): for spans A, B with `start <= end`, `A.overlap(B)` equals
`B.overlap(A)` exactly when neither span strictly contains the other with
strict inequalities at both endpoints; in that strict-containment case the two
directions disagree. -/
theorem c1_overlap_comm_characterisation (a b : BasicAnn)
    (ha : a.start ≤ a.end_) (hb : b.start ≤ b.end_) :
    a.overlap b = b.overlap a ↔
      ¬((a.start < b.start ∧ b.end_ < a.end_) ∨ (b.start < a.start ∧ a.end_ < b.end_)) := by
  rw [Bool.eq_iff_iff, overlap_iff, overlap_iff]
  omega

/-- Witness for C1 (amended) at the concrete spans [0,5] and [3,8]. -/
theorem c1_overlap_comm_witness :
    (BasicAnn.mk "a" 0 5 0).overlap (BasicAnn.mk "b" 3 8 1) =
        (BasicAnn.mk "b" 3 8 1).overlap (BasicAnn.mk "a" 0 5 0) :=
  (c1_overlap_comm_characterisation (BasicAnn.mk "a" 0 5 0) (BasicAnn.mk "b" 3 8 1)
    (by norm_num) (by norm_num)).mpr (by decide)

/-- C2 counterexample: `A.is_larger(B)` does not imply `A.overlap(B)`.
With A = [0,10] and B = [2,3] (both with `start <= end`), `A.is_larger(B)` is
true but `A.overlap(B)` is false. -/
theorem c2_counterexample :
    (BasicAnn.mk "a" 0 10 (-1)).is_larger (BasicAnn.mk "b" 2 3 (-1)) = true ∧
    (BasicAnn.mk "a" 0 10 (-1)).overlap (BasicAnn.mk "b" 2 3 (-1)) = false ∧
    (0 : Int) ≤ 10 ∧ (2 : Int) ≤ 3 := by
  refine ⟨?_, ?_, by norm_num, by norm_num⟩ <;> decide

/-- C2 (amended): strict containment implies overlap in the reversed
direction: if `A.is_larger(B)` then `B.overlap(A)` (the contained span's
endpoints fall inside the containing one), given `B.start <= B.end`. -/
theorem c2_is_larger_implies_overlap_rev (a b : BasicAnn)
    (hb : b.start ≤ b.end_) (h : a.is_larger b = true) :
    b.overlap a = true := by
  rw [is_larger_iff] at h
  rw [overlap_iff]
  omega

/-- Witness for C2 (amended) at A = [0,10], B = [2,3]. -/
theorem c2_is_larger_witness :
    (BasicAnn.mk "b" 2 3 (-1)).overlap (BasicAnn.mk "a" 0 10 (-1)) = true :=
  c2_is_larger_implies_overlap_rev (BasicAnn.mk "a" 0 10 (-1)) (BasicAnn.mk "b" 2 3 (-1))
    (by norm_num) (by decide)

/-- Embeds `EDIRAnn` (lines 160-190): a `BasicAnn` together with a type
string and a negation flag. -/
structure EDIRAnn extends BasicAnn where
  type : String
  negated : Bool
deriving DecidableEq, Repr

/-- Embeds the `EDIRAnn.label` property (lines 185-190): the type string,
prefixed with `neg_` when the annotation is negated. -/
def EDIRAnn.label (a : EDIRAnn) : String :=
  if a.negated then "neg_" ++ a.type else a.type

/-- Span overlap between two `EDIRAnn`s, inherited from `BasicAnn.overlap`. -/
def EDIRAnn.overlap (self other_ann : EDIRAnn) : Bool :=
  self.toBasicAnn.overlap other_ann.toBasicAnn

/-- Embeds the counter state of `LabelPerformance` (lines 1017-1067):
true-positive / false-negative / false-positive counters for one label. -/
structure LabelPerformance where
  tp : Nat
  fn : Nat
  fp : Nat
deriving DecidableEq, Repr

/-- Embeds `LabelPerformance.increase_true_positive` with the default
increment `k = 1`. -/
def LabelPerformance.increase_true_positive (p : LabelPerformance) : LabelPerformance :=
  { p with tp := p.tp + 1 }

/-- Embeds `LabelPerformance.increase_false_negative` with the default
increment `k = 1`. -/
def LabelPerformance.increase_false_negative (p : LabelPerformance) : LabelPerformance :=
  { p with fn := p.fn + 1 }

/-- Embeds `LabelPerformance.increase_false_positive` with the default
increment `k = 1`. -/
def LabelPerformance.increase_false_positive (p : LabelPerformance) : LabelPerformance :=
  { p with fp := p.fp + 1 }

/-- Embeds the `precision` property (lines 1048-1053): `-1` when
`tp + fp == 0`, otherwise real division `tp / (tp + fp)` (modelled in ℚ). -/
def LabelPerformance.precision (p : LabelPerformance) : ℚ :=
  if p.tp + p.fp = 0 then -1 else (p.tp : ℚ) / ((p.tp : ℚ) + (p.fp : ℚ))

/-- Embeds the `recall` property (lines 1055-1060). -/
def LabelPerformance.recall (p : LabelPerformance) : ℚ :=
  if p.tp + p.fn = 0 then -1 else (p.tp : ℚ) / ((p.tp : ℚ) + (p.fn : ℚ))

/-- Embeds the `f1` property (lines 1062-1067): `-1` when precision or recall
is `-1` or exactly `0`, otherwise the harmonic mean `2 / (1/p + 1/r)`. -/
def LabelPerformance.f1 (p : LabelPerformance) : ℚ :=
  if p.precision = -1 ∨ p.recall = -1 ∨ p.precision = 0 ∨ p.recall = 0 then -1
  else 2 / (1 / p.precision + 1 / p.recall)

theorem precision_nonneg_or_sentinel (p : LabelPerformance) :
    p.precision = -1 ∨ 0 ≤ p.precision := by
  unfold LabelPerformance.precision
  split
  · exact Or.inl rfl
  · exact Or.inr (by positivity)

theorem recall_nonneg_or_sentinel (p : LabelPerformance) :
    p.recall = -1 ∨ 0 ≤ p.recall := by
  unfold LabelPerformance.recall
  split
  · exact Or.inl rfl
  · exact Or.inr (by positivity)

/-- C6: precision is `-1` exactly when `tp + fp = 0` and otherwise equals
`tp / (tp + fp)`; recall is `-1` exactly when `tp + fn = 0` and otherwise
equals `tp / (tp + fn)`; `f1` is `-1` exactly when precision or recall is
`-1` or exactly `0`; and the all-zero record has precision, recall and f1
all equal to `-1`. -/
theorem c6_label_performance_sentinels (p : LabelPerformance) :
    (p.precision = -1 ↔ p.tp + p.fp = 0) ∧
    (p.tp + p.fp ≠ 0 → p.precision = (p.tp : ℚ) / ((p.tp : ℚ) + (p.fp : ℚ))) ∧
    (p.recall = -1 ↔ p.tp + p.fn = 0) ∧
    (p.tp + p.fn ≠ 0 → p.recall = (p.tp : ℚ) / ((p.tp : ℚ) + (p.fn : ℚ))) ∧
    (p.f1 = -1 ↔
      (p.precision = -1 ∨ p.recall = -1 ∨ p.precision = 0 ∨ p.recall = 0)) ∧
    ((LabelPerformance.mk 0 0 0).precision = -1 ∧
     (LabelPerformance.mk 0 0 0).recall = -1 ∧
     (LabelPerformance.mk 0 0 0).f1 = -1) := by
  have hprec : p.precision = -1 ↔ p.tp + p.fp = 0 := by
    unfold LabelPerformance.precision
    split
    · simp_all
    · rename_i h
      constructor
      · intro hc
        have h0 : (0 : ℚ) ≤ (p.tp : ℚ) / ((p.tp : ℚ) + (p.fp : ℚ)) := by positivity
        rw [hc] at h0
        norm_num at h0
      · intro hc
        exact absurd hc h
  have hrec : p.recall = -1 ↔ p.tp + p.fn = 0 := by
    unfold LabelPerformance.recall
    split
    · simp_all
    · rename_i h
      constructor
      · intro hc
        have h0 : (0 : ℚ) ≤ (p.tp : ℚ) / ((p.tp : ℚ) + (p.fn : ℚ)) := by positivity
        rw [hc] at h0
        norm_num at h0
      · intro hc
        exact absurd hc h
  refine ⟨hprec, ?_, hrec, ?_, ?_, by decide, by decide, ?_⟩
  · intro h
    unfold LabelPerformance.precision
    simp [h]
  · intro h
    unfold LabelPerformance.recall
    simp [h]
  · unfold LabelPerformance.f1
    split
    · rename_i h
      simp [h]
    · rename_i h
      push_neg at h
      obtain ⟨h1, h2, h3, h4⟩ := h
      have hp : 0 < p.precision := by
        rcases precision_nonneg_or_sentinel p with hx | hx
        · exact absurd hx h1
        · exact lt_of_le_of_ne hx (Ne.symm h3)
      have hr : 0 < p.recall := by
        rcases recall_nonneg_or_sentinel p with hx | hx
        · exact absurd hx h2
        · exact lt_of_le_of_ne hx (Ne.symm h4)
      have hpos : 0 < 2 / (1 / p.precision + 1 / p.recall) := by positivity
      constructor
      · intro hc
        rw [hc] at hpos
        norm_num at hpos
      · intro hc
        rcases hc with hc | hc | hc | hc
        · exact absurd hc h1
        · exact absurd hc h2
        · exact absurd hc h3
        · exact absurd hc h4
  · have : (LabelPerformance.mk 0 0 0).precision = -1 := by decide
    unfold LabelPerformance.f1
    rw [this]
    simp

/-- Witness for C6: the theorem applied to the record tp=2, fn=0, fp=0
discharges the nonzero-denominator hypothesis and yields the precision
value. -/
theorem c6_witness :
    (LabelPerformance.mk 2 0 0).precision =
      (((2 : Nat) : ℚ)) / (((2 : Nat) : ℚ) + ((0 : Nat) : ℚ)) :=
  (c6_label_performance_sentinels (LabelPerformance.mk 2 0 0)).2.1 (by norm_num)

/-- The `label2performance` dictionary of `CustomisedRecoginiser.validate`
(lines 578-601), modelled as a total map from label to counters; a label the
Python dict has not seen yet corresponds to the all-zero record that the code
would create on demand (`LabelPerformance(l)`). -/
def PerfMap : Type := String → LabelPerformance

/-- Fresh performance state: every label at all-zero counters. -/
def freshPerf : PerfMap := fun _ => LabelPerformance.mk 0 0 0

/-- Point update of the performance map at one label. -/
def updatePerf (m : PerfMap) (l : String) (f : LabelPerformance → LabelPerformance) : PerfMap :=
  fun x => if x = l then f (m x) else m x

/-- The inner loop of `validate`'s first pass (lines 587-592): the first
learnt annotation whose label equals the gold label and which overlaps the
gold annotation (`la.overlap(ga)`, learnt as receiver). -/
def goldMatch (learnt_anns : List EDIRAnn) (ga : EDIRAnn) : Option EDIRAnn :=
  learnt_anns.find? (fun la => la.label == ga.label && la.overlap ga)

/-- First pass of `validate` (lines 580-594): per gold annotation, a true
positive (recording the matched id) or a false negative. -/
def validateGoldLoop :
    List EDIRAnn → List EDIRAnn → PerfMap → List Int → PerfMap × List Int
  | [], _, m, ids => (m, ids)
  | ga :: gas, learnt, m, ids =>
    match goldMatch learnt ga with
    | some la =>
        validateGoldLoop gas learnt
          (updatePerf m ga.label LabelPerformance.increase_true_positive) (ids ++ [la.id])
    | none =>
        validateGoldLoop gas learnt
          (updatePerf m ga.label LabelPerformance.increase_false_negative) ids

/-- Second pass of `validate` (lines 595-601): every learnt annotation whose
id was never recorded in `matched_ann_ids` counts one false positive under
its own label. -/
def validateFpLoop : List EDIRAnn → List Int → PerfMap → PerfMap
  | [], _, m => m
  | la :: las, ids, m =>
    if ids.contains la.id then validateFpLoop las ids m
    else validateFpLoop las ids (updatePerf m la.label LabelPerformance.increase_false_positive)

/-- Embeds `CustomisedRecoginiser.validate` (lines 578-601). -/
def validate (gold_anns learnt_anns : List EDIRAnn) (label2performance : PerfMap) : PerfMap :=
  let r := validateGoldLoop gold_anns learnt_anns label2performance []
  validateFpLoop learnt_anns r.2 r.1

/-- True-positive count the code produces for label `L`: gold annotations of
label `L` that have some overlapping same-label learnt annotation. -/
def validate_spec_tp (gold learnt : List EDIRAnn) (L : String) : Nat :=
  (gold.filter (fun ga => ga.label == L && (goldMatch learnt ga).isSome)).length

/-- False-negative count for label `L`: gold annotations of label `L` with no
overlapping same-label learnt annotation. -/
def validate_spec_fn (gold learnt : List EDIRAnn) (L : String) : Nat :=
  (gold.filter (fun ga => ga.label == L && !(goldMatch learnt ga).isSome)).length

/-- The ids recorded during the first pass: for every matched gold
annotation, the id of its first overlapping same-label learnt annotation. -/
def matchedIds (gold learnt : List EDIRAnn) : List Int :=
  gold.filterMap (fun ga => (goldMatch learnt ga).map (fun la => la.id))

/-- False-positive count for label `L`: learnt annotations of label `L` whose
id is not among the recorded matched ids. -/
def validate_spec_fp (gold learnt : List EDIRAnn) (L : String) : Nat :=
  (learnt.filter (fun la => la.label == L && !((matchedIds gold learnt).contains la.id))).length

theorem validateGoldLoop_ids (gold learnt : List EDIRAnn) (m : PerfMap) (ids : List Int) :
    (validateGoldLoop gold learnt m ids).2 = ids ++ matchedIds gold learnt := by
  induction gold generalizing m ids with
  | nil => simp [validateGoldLoop, matchedIds]
  | cons ga gas ih =>
    unfold validateGoldLoop
    cases h : goldMatch learnt ga with
    | some la => rw [ih]; simp [matchedIds, List.filterMap_cons, h]
    | none => rw [ih]; simp [matchedIds, List.filterMap_cons, h]

theorem validateGoldLoop_perf (gold learnt : List EDIRAnn) (m : PerfMap) (ids : List Int)
    (L : String) :
    (validateGoldLoop gold learnt m ids).1 L =
      LabelPerformance.mk ((m L).tp + validate_spec_tp gold learnt L)
        ((m L).fn + validate_spec_fn gold learnt L) ((m L).fp) := by
  induction gold generalizing m ids with
  | nil => simp [validateGoldLoop, validate_spec_tp, validate_spec_fn]
  | cons ga gas ih =>
    unfold validateGoldLoop
    cases h : goldMatch learnt ga with
    | some la =>
      rw [ih]
      unfold validate_spec_tp validate_spec_fn
      by_cases hL : ga.label = L
      · simp [updatePerf, hL, h, LabelPerformance.increase_true_positive, List.filter_cons]
        omega
      · have hL' : ¬(L = ga.label) := fun hc => hL hc.symm
        have hbeq : (ga.label == L) = false := by simp [hL]
        simp [updatePerf, hL', hbeq, List.filter_cons]
    | none =>
      rw [ih]
      unfold validate_spec_tp validate_spec_fn
      by_cases hL : ga.label = L
      · simp [updatePerf, hL, h, LabelPerformance.increase_false_negative, List.filter_cons]
        omega
      · have hL' : ¬(L = ga.label) := fun hc => hL hc.symm
        have hbeq : (ga.label == L) = false := by simp [hL]
        simp [updatePerf, hL', hbeq, List.filter_cons]

theorem validateFpLoop_perf (learnt : List EDIRAnn) (ids : List Int) (m : PerfMap)
    (L : String) :
    validateFpLoop learnt ids m L =
      LabelPerformance.mk ((m L).tp) ((m L).fn)
        ((m L).fp + (learnt.filter (fun la => la.label == L && !(ids.contains la.id))).length) := by
  induction learnt generalizing m with
  | nil => simp [validateFpLoop]
  | cons la las ih =>
    unfold validateFpLoop
    by_cases hid : ids.contains la.id
    · rw [if_pos hid, ih]
      have hhead : (la.label == L && !(ids.contains la.id)) = false := by
        rw [hid]; simp
      rw [List.filter_cons, hhead]
      simp
    · rw [if_neg hid, ih]
      have hid' : ids.contains la.id = false := by
        cases hc : ids.contains la.id
        · rfl
        · exact absurd hc hid
      by_cases hL : la.label = L
      · have hhead : (la.label == L && !(ids.contains la.id)) = true := by
          rw [hid', hL]; simp
        rw [List.filter_cons, hhead]
        simp [updatePerf, hL, LabelPerformance.increase_false_positive]
        omega
      · have hL' : ¬(L = la.label) := fun hc => hL hc.symm
        have hhead : (la.label == L && !(ids.contains la.id)) = false := by
          have : (la.label == L) = false := by simp [hL]
          rw [this]; simp
        rw [List.filter_cons, hhead]
        simp [updatePerf, hL']

/-- Gold and learnt annotations exhibiting the missing "unclaimed" check:
two gold entities of label `l` over the same span, one learnt mention. -/
def c3Gold : List EDIRAnn :=
  [⟨⟨"g1", 0, 5, 0⟩, "l", false⟩, ⟨⟨"g2", 0, 5, 1⟩, "l", false⟩]

/-- One learnt mention of label `l` overlapping both gold entities above. -/
def c3Learnt : List EDIRAnn := [⟨⟨"d", 0, 5, 0⟩, "l", false⟩]

/-- The matching pass exactly as the specification words it: a gold entity is
matched to the first *unclaimed* overlapping same-label mention, and a
matched mention's id is consumed so later gold entities cannot match it
again.  Defined for comparison with `validateGoldLoop`, which performs no
unclaimed check. -/
def validateClaimedGoldLoop :
    List EDIRAnn → List EDIRAnn → PerfMap → List Int → PerfMap × List Int
  | [], _, m, ids => (m, ids)
  | ga :: gas, learnt, m, ids =>
    match learnt.find? (fun la =>
        la.label == ga.label && la.overlap ga && !(ids.contains la.id)) with
    | some la =>
        validateClaimedGoldLoop gas learnt
          (updatePerf m ga.label LabelPerformance.increase_true_positive) (ids ++ [la.id])
    | none =>
        validateClaimedGoldLoop gas learnt
          (updatePerf m ga.label LabelPerformance.increase_false_negative) ids

/-- `validate` as the specification describes it, consuming claimed ids. -/
def validateClaimed (gold_anns learnt_anns : List EDIRAnn) (m : PerfMap) : PerfMap :=
  let r := validateClaimedGoldLoop gold_anns learnt_anns m []
  validateFpLoop learnt_anns r.2 r.1

/-- C3 counterexample: the code's `validate` has no "unclaimed" restriction.
With two gold entities of label `l` both overlapping the single learnt
mention, the code counts two true positives and no false negatives, whereas
the claimed algorithm (consuming matched mention ids) counts one true
positive and one false negative. -/
theorem c3_counterexample :
    validate c3Gold c3Learnt freshPerf "l" = LabelPerformance.mk 2 0 0 ∧
    c3Learnt.length = 1 ∧
    validateClaimed c3Gold c3Learnt freshPerf "l" = LabelPerformance.mk 1 1 0 ∧
    validate c3Gold c3Learnt freshPerf "l" ≠ validateClaimed c3Gold c3Learnt freshPerf "l" := by
  refine ⟨?_, rfl, ?_, ?_⟩ <;> decide

/-- C3 (amended): `validate`, started from fresh records, matches each gold
entity to the first detected mention with the same label that overlaps it,
regardless of whether that mention was already matched by an earlier gold
entity; it counts one true positive per matched gold entity, one false
negative per unmatched gold entity, and one false positive per detected
mention whose id was never recorded as matched. -/
theorem c3_validate_characterisation (gold_anns learnt_anns : List EDIRAnn) (L : String) :
    validate gold_anns learnt_anns freshPerf L =
      LabelPerformance.mk (validate_spec_tp gold_anns learnt_anns L)
        (validate_spec_fn gold_anns learnt_anns L)
        (validate_spec_fp gold_anns learnt_anns L) := by
  show validateFpLoop learnt_anns _ _ L = _
  rw [validateFpLoop_perf, validateGoldLoop_perf, validateGoldLoop_ids]
  simp [freshPerf, validate_spec_fp]

/-- C9: `validate` is deterministic and idempotent over fresh state: started
from any two all-zero performance maps, it produces identical counters for
every label. -/
theorem c9_validate_idempotent (gold_anns learnt_anns : List EDIRAnn)
    (m1 m2 : PerfMap)
    (h1 : ∀ L, m1 L = LabelPerformance.mk 0 0 0)
    (h2 : ∀ L, m2 L = LabelPerformance.mk 0 0 0) (L : String) :
    validate gold_anns learnt_anns m1 L = validate gold_anns learnt_anns m2 L := by
  have hm : m1 = m2 := funext fun x => (h1 x).trans (h2 x).symm
  rw [hm]

/-- Witness for C9 at a concrete gold/learnt pair and two fresh maps. -/
theorem c9_witness :
    validate [⟨⟨"g", 2, 4, 0⟩, "t", false⟩] [⟨⟨"d", 3, 9, 1⟩, "t", false⟩] freshPerf "t" =
      validate [⟨⟨"g", 2, 4, 0⟩, "t", false⟩] [⟨⟨"d", 3, 9, 1⟩, "t", false⟩] freshPerf "t" :=
  c9_validate_idempotent [⟨⟨"g", 2, 4, 0⟩, "t", false⟩] [⟨⟨"d", 3, 9, 1⟩, "t", false⟩]
    freshPerf freshPerf (fun _ => rfl) (fun _ => rfl) "t"

/-- Python `str.lower()`, modelled character-wise (the built-in
`String.toLower` is definitionally opaque, so the dimension strings are
lowered by mapping `Char.toLower` over the characters). -/
def lowercase (s : String) : String := ⟨s.data.map Char.toLower⟩

/-- Association-list update mirroring Python dict assignment
`d[v] = n`: overwrite the first binding for `v`, or append a new one. -/
def assocSet : List (String × Nat) → String → Nat → List (String × Nat)
  | [], v, n => [(v, n)]
  | (k, m) :: rest, v, n =>
    if k = v then (k, n) :: rest else (k, m) :: assocSet rest v n

/-- Association-list lookup `d[v]`; in the code the key is always present
when read (`add_context_dimension` reads it only for an existing dimension),
so the default `0` is never observed on reachable states. -/
def assocGet (d : List (String × Nat)) (v : String) : Nat :=
  ((d.find? (fun p => p.1 = v)).map (fun p => p.2)).getD 0

/-- Python set `add`: append the element unless already present. -/
def setAdd (s : List String) (v : String) : List String :=
  if v ∈ s then s else s ++ [v]

/-- Embeds the dimension-accumulation state of `LabelModel`
(lines 621-634): label dimensions, context dimensions with their frequency
table, the TP/FP membership sets, and the accumulated `_tps`/`_fps` counts
set by `collect_tfidf_dimensions` (lines 821-822). -/
structure LabelModel where
  label_dimensions : List String
  context_dimensions : List String
  label2freq : List (String × Nat)
  tp_labels : List String
  fp_labels : List String
  tps : Nat
  fps : Nat
deriving DecidableEq, Repr

/-- The freshly constructed `LabelModel` (lines 621-634): all collections
empty, `_tps = _fps = 0`. -/
def LabelModel.initSt : LabelModel :=
  { label_dimensions := [], context_dimensions := [], label2freq := []
  , tp_labels := [], fp_labels := [], tps := 0, fps := 0 }

/-- Embeds `LabelModel.add_label_dimension` (lines 652-658): lower-case the
value; if it is a new label dimension, append it and add it to the TP/FP
membership sets according to which of the `tp`/`fp` arguments is not None. -/
def LabelModel.add_label_dimension (st : LabelModel) (value : String)
    (tp fp : Option Bool) : LabelModel :=
  let v := lowercase value
  if v ∈ st.label_dimensions then st
  else
    let st1 := { st with label_dimensions := st.label_dimensions ++ [v] }
    let st2 := if tp.isSome then { st1 with tp_labels := setAdd st1.tp_labels v } else st1
    if fp.isSome then { st2 with fp_labels := setAdd st2.fp_labels v } else st2

/-- Embeds `LabelModel.add_context_dimension` (lines 663-672): lower-case the
value; register a new context dimension with frequency 1 or bump the
frequency of an existing one; then add the value to the TP/FP membership
sets according to which of the `tp`/`fp` arguments is not None. -/
def LabelModel.add_context_dimension (st : LabelModel) (value : String)
    (tp fp : Option Bool) : LabelModel :=
  let v := lowercase value
  let st1 :=
    if v ∈ st.context_dimensions then
      { st with label2freq := assocSet st.label2freq v (assocGet st.label2freq v + 1) }
    else
      { st with context_dimensions := st.context_dimensions ++ [v]
              , label2freq := assocSet st.label2freq v 1 }
  let st2 := if tp.isSome then { st1 with tp_labels := setAdd st1.tp_labels v } else st1
  if fp.isSome then { st2 with fp_labels := setAdd st2.fp_labels v } else st2

/-- Embeds the `idf_weight` computation of `get_top_tfidf_dimensions`
(lines 688-690): `tps / fps` when both counts are positive, else `1`. -/
def LabelModel.idf_weight (st : LabelModel) : ℚ :=
  if 0 < st.tps ∧ 0 < st.fps then (st.tps : ℚ) / (st.fps : ℚ) else 1

/-- The denominator of the per-dimension `idf` (line 694): membership count
of the dimension in the TP and FP sets. -/
def LabelModel.dim_idf_denom (st : LabelModel) (l : String) : Nat :=
  (if l ∈ st.tp_labels then 1 else 0) + (if l ∈ st.fp_labels then 1 else 0)

/-- Embeds the per-dimension score of `get_top_tfidf_dimensions`
(lines 693-702).  When the dimension is in neither membership set the Python
`1.0 / 0` raises `ZeroDivisionError`; that failure is modelled as `none`. -/
def LabelModel.dim_score (st : LabelModel) (l : String) : Option ℚ :=
  let w := st.idf_weight
  let d := st.dim_idf_denom l
  if d = 0 then none
  else
    let idf : ℚ := 1 / (d : ℚ)
    let score : ℚ := (assocGet st.label2freq l : ℚ)
    if w = 1 ∨ (l ∈ st.tp_labels ∧ l ∈ st.fp_labels) then
      some (if l ∈ st.tp_labels ∧ l ∈ st.fp_labels then 0 else score * idf)
    else if l ∈ st.fp_labels then some (score * w * idf)
    else some score

/-- C4: with accumulated `tps = 10` and `fps = 5` the idf weight is `2`; a
context dimension in the FP set only scores exactly `freq * 2 * 1`, and a
dimension in both membership sets scores exactly `0`. -/
theorem c4_tfidf_scoring (st : LabelModel) (l : String)
    (htps : st.tps = 10) (hfps : st.fps = 5) :
    (l ∈ st.fp_labels → l ∉ st.tp_labels →
      st.dim_score l = some ((assocGet st.label2freq l : ℚ) * 2 * 1)) ∧
    (l ∈ st.fp_labels → l ∈ st.tp_labels → st.dim_score l = some 0) := by
  have hw : st.idf_weight = 2 := by
    unfold LabelModel.idf_weight
    rw [htps, hfps]
    norm_num
  constructor
  · intro hfp htp
    unfold LabelModel.dim_score LabelModel.dim_idf_denom
    rw [hw]
    simp [hfp, htp]
  · intro hfp htp
    unfold LabelModel.dim_score LabelModel.dim_idf_denom
    rw [hw]
    simp [hfp, htp]

/-- A concrete `LabelModel` state for the C4 witness: tps=10, fps=5, the
dimension `"ctx"` registered with frequency 7 and FP-only membership. -/
def c4State : LabelModel :=
  { label_dimensions := [], context_dimensions := ["ctx"], label2freq := [("ctx", 7)]
  , tp_labels := [], fp_labels := ["ctx"], tps := 10, fps := 5 }

/-- Witness for C4 at `c4State`. -/
theorem c4_witness :
    c4State.dim_score "ctx" = some ((assocGet c4State.label2freq "ctx" : ℚ) * 2 * 1) :=
  (c4_tfidf_scoring c4State "ctx" rfl rfl).1 (by decide) (by decide)

/-- States of `LabelModel` reachable through its public dimension-collection
operations: the fresh constructor, `add_label_dimension`,
`add_context_dimension` (with any `tp`/`fp` arguments, as `collect_dimensions`
line 774 calls it with neither), and the assignment of the accumulated
`_tps`/`_fps` counts (lines 821-822). -/
inductive ReachableLM : LabelModel → Prop where
  | init : ReachableLM LabelModel.initSt
  | addLabel {st : LabelModel} (v : String) (tp fp : Option Bool) :
      ReachableLM st → ReachableLM (st.add_label_dimension v tp fp)
  | addContext {st : LabelModel} (v : String) (tp fp : Option Bool) :
      ReachableLM st → ReachableLM (st.add_context_dimension v tp fp)
  | setCounts {st : LabelModel} (tps fps : Nat) :
      ReachableLM st → ReachableLM { st with tps := tps, fps := fps }

/-- The state `collect_dimensions` produces after registering one context
dimension with neither `tp` nor `fp` set. -/
def c5BadState : LabelModel := LabelModel.initSt.add_context_dimension "x" none none

/-- C5 counterexample: the state obtained from a fresh `LabelModel` by the
single public call `add_context_dimension("x")` (the form used by
`collect_dimensions`) registers the dimension `"x"` in the frequency table
while it belongs to neither the TP nor the FP membership set, and the idf
computation of `get_top_tfidf_dimensions` divides by zero there (modelled as
`dim_score = none`), rather than scoring the dimension 0 or excluding it. -/
theorem c5_counterexample :
    ReachableLM c5BadState ∧
    "x" ∈ c5BadState.label2freq.map Prod.fst ∧
    "x" ∉ c5BadState.tp_labels ∧ "x" ∉ c5BadState.fp_labels ∧
    c5BadState.dim_score "x" = none :=
  ⟨ReachableLM.addContext "x" none none ReachableLM.init,
    by decide, by decide, by decide, by decide⟩

/-- `LabelModel` states reachable when every `add_context_dimension` call
passes at least one of `tp`/`fp`, the discipline `collect_tfidf_dimensions`
follows (lines 819-820 always pass exactly one of them). -/
inductive GuardedReachableLM : LabelModel → Prop where
  | init : GuardedReachableLM LabelModel.initSt
  | addLabel {st : LabelModel} (v : String) (tp fp : Option Bool) :
      GuardedReachableLM st → GuardedReachableLM (st.add_label_dimension v tp fp)
  | addContext {st : LabelModel} (v : String) (tp fp : Option Bool)
      (hflag : tp.isSome ∨ fp.isSome) :
      GuardedReachableLM st → GuardedReachableLM (st.add_context_dimension v tp fp)
  | setCounts {st : LabelModel} (tps fps : Nat) :
      GuardedReachableLM st → GuardedReachableLM { st with tps := tps, fps := fps }

theorem mem_setAdd_of_mem {s : List String} {a : String} (v : String) (h : a ∈ s) :
    a ∈ setAdd s v := by
  unfold setAdd
  split
  · exact h
  · exact List.mem_append_left _ h

theorem mem_setAdd_self (s : List String) (v : String) : v ∈ setAdd s v := by
  unfold setAdd
  split
  · assumption
  · exact List.mem_append_right _ (List.mem_singleton.mpr rfl)

theorem mem_keys_assocSet {d : List (String × Nat)} {v l : String} {n : Nat}
    (h : l ∈ (assocSet d v n).map Prod.fst) : l = v ∨ l ∈ d.map Prod.fst := by
  induction d with
  | nil => simpa [assocSet] using h
  | cons p rest ih =>
    obtain ⟨k, m⟩ := p
    unfold assocSet at h
    by_cases hk : k = v
    · rw [if_pos hk] at h
      simp only [List.map_cons, List.mem_cons] at h
      rcases h with h | h
      · subst hk
        exact Or.inl h
      · exact Or.inr (by simp [h])
    · rw [if_neg hk] at h
      simp only [List.map_cons, List.mem_cons] at h
      rcases h with h | h
      · exact Or.inr (by simp [h])
      · rcases ih h with h' | h'
        · exact Or.inl h'
        · exact Or.inr (by simp [h'])

theorem add_label_label2freq (st : LabelModel) (v : String) (tp fp : Option Bool) :
    (st.add_label_dimension v tp fp).label2freq = st.label2freq := by
  simp only [LabelModel.add_label_dimension]
  split_ifs <;> rfl

theorem add_label_tp_mono (st : LabelModel) (v : String) (tp fp : Option Bool) {a : String}
    (h : a ∈ st.tp_labels) : a ∈ (st.add_label_dimension v tp fp).tp_labels := by
  simp only [LabelModel.add_label_dimension]
  split_ifs <;> first
    | exact h
    | exact mem_setAdd_of_mem _ h

theorem add_label_fp_mono (st : LabelModel) (v : String) (tp fp : Option Bool) {a : String}
    (h : a ∈ st.fp_labels) : a ∈ (st.add_label_dimension v tp fp).fp_labels := by
  simp only [LabelModel.add_label_dimension]
  split_ifs <;> first
    | exact h
    | exact mem_setAdd_of_mem _ h

theorem add_context_keys {st : LabelModel} {v : String} {tp fp : Option Bool} {l : String}
    (h : l ∈ (st.add_context_dimension v tp fp).label2freq.map Prod.fst) :
    l = lowercase v ∨ l ∈ st.label2freq.map Prod.fst := by
  simp only [LabelModel.add_context_dimension] at h
  split_ifs at h <;> exact mem_keys_assocSet h

theorem add_context_tp_mono (st : LabelModel) (v : String) (tp fp : Option Bool) {a : String}
    (h : a ∈ st.tp_labels) : a ∈ (st.add_context_dimension v tp fp).tp_labels := by
  simp only [LabelModel.add_context_dimension]
  split_ifs <;> first
    | exact h
    | exact mem_setAdd_of_mem _ h

theorem add_context_fp_mono (st : LabelModel) (v : String) (tp fp : Option Bool) {a : String}
    (h : a ∈ st.fp_labels) : a ∈ (st.add_context_dimension v tp fp).fp_labels := by
  simp only [LabelModel.add_context_dimension]
  split_ifs <;> first
    | exact h
    | exact mem_setAdd_of_mem _ h

theorem add_context_covers_self (st : LabelModel) (v : String) (tp fp : Option Bool)
    (hflag : tp.isSome ∨ fp.isSome) :
    lowercase v ∈ (st.add_context_dimension v tp fp).tp_labels ∨
      lowercase v ∈ (st.add_context_dimension v tp fp).fp_labels := by
  simp only [LabelModel.add_context_dimension]
  by_cases hfp : fp.isSome
  · right
    split_ifs <;> simp_all <;> exact mem_setAdd_self _ _
  · have htp : tp.isSome := by
      rcases hflag with h | h
      · exact h
      · exact absurd h hfp
    left
    split_ifs <;> simp_all <;> exact mem_setAdd_self _ _

/-- Every context dimension registered on a guardedly-reachable state belongs
to the TP or the FP membership set. -/
theorem guarded_dims_covered {st : LabelModel} (h : GuardedReachableLM st) :
    ∀ l ∈ st.label2freq.map Prod.fst, l ∈ st.tp_labels ∨ l ∈ st.fp_labels := by
  induction h with
  | init =>
    intro l hl
    simp [LabelModel.initSt] at hl
  | addLabel v tp fp _ ih =>
    intro l hl
    rw [add_label_label2freq] at hl
    rcases ih l hl with h' | h'
    · exact Or.inl (add_label_tp_mono _ v tp fp h')
    · exact Or.inr (add_label_fp_mono _ v tp fp h')
  | addContext v tp fp hflag _ ih =>
    intro l hl
    rcases add_context_keys hl with h' | h'
    · subst h'
      exact add_context_covers_self _ v tp fp hflag
    · rcases ih l h' with h'' | h''
      · exact Or.inl (add_context_tp_mono _ v tp fp h'')
      · exact Or.inr (add_context_fp_mono _ v tp fp h'')
  | setCounts tps fps _ ih =>
    intro l hl
    exact ih l hl

/-- C5 (amended): on every `LabelModel` state reachable when each
`add_context_dimension` call passes `tp` or `fp` — the discipline of the
tfidf-collection pass — every registered context dimension belongs to the TP
or the FP membership set and the idf computation of
`get_top_tfidf_dimensions` does not divide by zero (`dim_score` succeeds).
A dimension registered with neither flag, as `collect_dimensions` does it,
instead makes the idf computation fail (see the counterexample). -/
theorem c5_guarded_no_div_by_zero {st : LabelModel} (h : GuardedReachableLM st)
    (l : String) (hl : l ∈ st.label2freq.map Prod.fst) :
    (l ∈ st.tp_labels ∨ l ∈ st.fp_labels) ∧ (st.dim_score l).isSome = true := by
  have hmem := guarded_dims_covered h l hl
  refine ⟨hmem, ?_⟩
  have hd : st.dim_idf_denom l ≠ 0 := by
    unfold LabelModel.dim_idf_denom
    rcases hmem with hm | hm <;> simp [hm]
  simp only [LabelModel.dim_score]
  rw [if_neg hd]
  split_ifs <;> rfl

/-- The state of the C5 witness: one context dimension registered with the
`tp` flag, as `collect_tfidf_dimensions` registers matched context. -/
def c5GoodState : LabelModel := LabelModel.initSt.add_context_dimension "x" (some true) none

/-- Witness for C5 (amended) at `c5GoodState`. -/
theorem c5_witness :
    ("x" ∈ c5GoodState.tp_labels ∨ "x" ∈ c5GoodState.fp_labels) ∧
      (c5GoodState.dim_score "x").isSome = true :=
  c5_guarded_no_div_by_zero
    (GuardedReachableLM.addContext "x" (some true) none (Or.inl rfl) GuardedReachableLM.init)
    "x" (by decide)

/-- The inner gold-matching loop of `LabelModel.load_data` (lines 848-855):
for one detected annotation `a`, walk all gold entities; a gold entity whose
id is still unmatched, which overlaps `a` (`g.overlap(a)`, gold as receiver)
and whose label equals the model's label, is consumed; a second such gold
entity for the same `a` increments the multiple-true-positive counter.
Returns the updated `matched` flag, remaining unmatched ids, and counter. -/
def loadDataMatchLoop :
    List EDIRAnn → String → BasicAnn → List Int → Bool → Nat → Bool × List Int × Nat
  | [], _, _, nm, matched, mtp => (matched, nm, mtp)
  | g :: gs, label, a, nm, matched, mtp =>
    if nm.contains g.id then
      if g.toBasicAnn.overlap a && (g.label == label) then
        loadDataMatchLoop gs label a (nm.erase g.id) true
          (if matched then mtp + 1 else mtp)
      else
        loadDataMatchLoop gs label a nm matched mtp
    else
      loadDataMatchLoop gs label a nm matched mtp

/-- The per-detected-annotation loop of `load_data` (lines 845-867): each
detected annotation produces one training row, labelled 1 when it matched an
unmatched gold entity and 0 otherwise.  Returns the row labels `Y`, the
remaining unmatched gold ids, and the multiple-true-positive counter. -/
def loadDataAnnsLoop :
    List BasicAnn → List EDIRAnn → String → List Int → Nat → List Nat →
      List Nat × List Int × Nat
  | [], _, _, nm, mtp, Y => (Y, nm, mtp)
  | a :: rest, golds, label, nm, mtp, Y =>
    match loadDataMatchLoop golds label a nm false mtp with
    | (matched, nm', mtp') =>
        loadDataAnnsLoop rest golds label nm' mtp' (Y ++ [if matched then 1 else 0])

/-- The per-document core of `LabelModel.load_data` (lines 839-868): collect
the ids of gold entities carrying the target label, align every detected
annotation against them, and report the training-row labels, the
false-negative count (gold ids left unmatched, line 868) and the
multiple-true-positive counter. -/
def load_data_core (golds : List EDIRAnn) (anns : List BasicAnn) (label : String) :
    List Nat × Nat × Nat :=
  let nm0 := (golds.filter (fun e => e.label == label)).map (fun e => e.id)
  let r := loadDataAnnsLoop anns golds label nm0 0 []
  (r.1, r.2.1.length, r.2.2)

/-- The C7 scenario: one gold entity of label `stroke` on [10,15]. -/
def c7Gold : List EDIRAnn := [⟨⟨"stroke", 10, 15, 0⟩, "stroke", false⟩]

/-- Two detected mentions, both overlapping the single gold entity. -/
def c7Anns : List BasicAnn := [⟨"s1", 10, 15, 0⟩, ⟨"s2", 8, 12, 1⟩]

/-- C7 counterexample: with one gold entity and two detected mentions both
overlapping it, `load_data` labels the first row 1 and the second 0 with no
false negatives, but the multiple-true-positive counter stays 0 — it counts a
single detected mention matching several gold entities, not several mentions
matching one gold entity — contradicting the claimed increment of one. -/
theorem c7_counterexample :
    load_data_core c7Gold c7Anns "stroke" = ([1, 0], 0, 0) ∧
    (load_data_core c7Gold c7Anns "stroke").2.2 ≠ 1 := by
  refine ⟨?_, ?_⟩ <;> decide

/-- C7 (amended): for a document with exactly one gold entity of the target
label and two detected mentions of that label both overlapping it, exactly
one detected mention (the first) is counted as matched, both detected
mentions produce training rows (labelled 1 and 0), no false negative is
recorded, and the multiple-true-positive counter is not incremented: it
counts a single detected mention overlapping several unmatched gold
entities, which does not happen here. -/
theorem c7_two_mentions_one_gold (g : EDIRAnn) (a1 a2 : BasicAnn) (label : String)
    (hlab : g.label = label)
    (h1 : g.toBasicAnn.overlap a1 = true)
    (h2 : g.toBasicAnn.overlap a2 = true) :
    load_data_core [g] [a1, a2] label = ([1, 0], 0, 0) := by
  have hbeq : (g.label == label) = true := by simp [hlab]
  simp only [load_data_core, List.filter_cons, List.filter_nil, hbeq, List.map_cons,
    List.map_nil, loadDataAnnsLoop, loadDataMatchLoop, List.contains_cons,
    List.contains_nil, h1, h2]
  simp [List.erase_cons, loadDataAnnsLoop, loadDataMatchLoop]

/-- Witness for C7 (amended) at the concrete scenario. -/
theorem c7_witness :
    load_data_core c7Gold c7Anns "stroke" = ([1, 0], 0, 0) :=
  c7_two_mentions_one_gold ⟨⟨"stroke", 10, 15, 0⟩, "stroke", false⟩
    ⟨"s1", 10, 15, 0⟩ ⟨"s2", 8, 12, 1⟩ "stroke" rfl (by decide) (by decide)

/-- Embeds the prediction-vector computation of `LabelModel.predict_use_model`
(lines 982-1006).  The persisted classifier is opaque to the core and is
modelled as an optional prediction function (`none` = the model file does not
exist, line 986).  When the file is missing, or the example count is at most
`_min_sample_size`, the result is `numpy.ones(len(X))` (line 1004); otherwise
it is the loaded model's prediction.  The subsequent per-example scoring loop
(lines 1007-1014) only reads this vector and does not change it. -/
def predict_use_model_P (model : Option (List (List Int) → List ℚ))
    (X : List (List Int)) (min_sample_size : Nat) : List ℚ :=
  let all_true := model.isNone
  let P0 : List ℚ :=
    match model with
    | some m => m X
    | none => []
  if all_true || decide (X.length ≤ min_sample_size) then
    List.replicate X.length 1
  else
    P0

/-- C8: if the model file does not exist, or the number of examples is at
most the configured minimum sample size, every example is predicted positive
— the prediction vector is all ones — regardless of the feature values. -/
theorem c8_fallback_predicts_positive (model : Option (List (List Int) → List ℚ))
    (X : List (List Int)) (min_sample_size : Nat)
    (h : model = none ∨ X.length ≤ min_sample_size) :
    predict_use_model_P model X min_sample_size = List.replicate X.length 1 := by
  unfold predict_use_model_P
  rcases h with h | h
  · subst h
    simp
  · simp [h]

/-- Witness for C8: no model file, two examples with arbitrary features. -/
theorem c8_witness :
    predict_use_model_P none [[5, 7], [0, -3]] 0 = [1, 1] := by
  have h := c8_fallback_predicts_positive none [[5, 7], [0, -3]] 0 (Or.inl rfl)
  simpa using h

/-- The per-document annotation store read by the sentence-window functions
of `CustomisedRecoginiser`: concept-mention annotations (`self.annotations`),
phenotype annotations (`self.phenotypes`) and sentence spans
(`self.sentences`), all used only through their spans here. -/
structure RecogniserDoc where
  annotations : List BasicAnn
  phenotypes : List BasicAnn
  sentences : List BasicAnn
deriving Repr

/-- Embeds `get_ann_sentence` (lines 467-476): the first sentence in document
order that the annotation overlaps (`ann.overlap(s)`), `none` when absent. -/
def get_ann_sentence (doc : RecogniserDoc) (ann : BasicAnn) : Option BasicAnn :=
  doc.sentences.find? (fun s => ann.overlap s)

/-- Embeds `get_previous_sentences` (lines 478-486): `none` when the
annotation's sentence is not found; otherwise all sentences starting before
the annotation's sentence, with the annotation's own sentence appended when
`include_self` is set. -/
def get_previous_sentences (doc : RecogniserDoc) (ann : BasicAnn)
    (include_self : Bool) : Option (List BasicAnn) :=
  match get_ann_sentence doc ann with
  | none => none
  | some sent =>
      some ((doc.sentences.filter (fun s => s.start < sent.start)) ++
        (if include_self then [sent] else []))

/-- Embeds `get_sent_anns` (lines 488-500): the concept and phenotype
annotations overlapping the sentence (`a.overlap(sent)`), excluding any that
the `ann_ignore` annotation overlaps (`ann_ignore.overlap(a)`). -/
def get_sent_anns (doc : RecogniserDoc) (sent : BasicAnn)
    (ann_ignore : Option BasicAnn) : List BasicAnn × List BasicAnn :=
  ( doc.annotations.filter (fun a =>
      a.overlap sent && !(match ann_ignore with
        | some ig => ig.overlap a
        | none => false))
  , doc.phenotypes.filter (fun a =>
      a.overlap sent && !(match ann_ignore with
        | some ig => ig.overlap a
        | none => false)) )

/-- Embeds `get_prior_anns` (lines 508-515): collects the sentence
annotations of the last element of `get_previous_sentences(ann)` (the
annotation's own sentence, since `include_self` defaults to true), excluding
the annotation itself.  When `get_previous_sentences` returns `None`, the
Python subscript `sents[-1:]` raises `TypeError`; that failure is `none`. -/
def get_prior_anns (doc : RecogniserDoc) (ann : BasicAnn) :
    Option (List BasicAnn × List BasicAnn) :=
  match get_previous_sentences doc ann true with
  | none => none
  | some sents =>
      some ((sents.drop (sents.length - 1)).foldl
        (fun ret s =>
          let r := get_sent_anns doc s (some ann)
          (ret.1 ++ r.1, ret.2 ++ r.2)) ([], []))

/-- C10: `get_prior_anns` succeeds exactly when the annotation overlaps some
sentence of the document; when no sentence overlaps it,
`get_previous_sentences` yields `None` and `get_prior_anns` fails (the
`sents[-1:]` subscript on `None`) instead of returning empty context lists. -/
theorem c10_get_prior_anns_totality (doc : RecogniserDoc) (ann : BasicAnn) :
    ((get_prior_anns doc ann).isSome = doc.sentences.any (fun s => ann.overlap s)) ∧
    ((∀ s ∈ doc.sentences, ann.overlap s = false) → get_prior_anns doc ann = none) := by
  constructor
  · unfold get_prior_anns get_previous_sentences get_ann_sentence
    cases h : doc.sentences.find? (fun s => ann.overlap s) with
    | none =>
      rw [List.find?_eq_none] at h
      simp only [Option.isSome_none]
      symm
      rw [List.any_eq_false]
      exact h
    | some sent =>
      have hp := List.find?_some h
      have hmem := List.mem_of_find?_eq_some h
      simp only [Option.isSome_some]
      symm
      rw [List.any_eq_true]
      exact ⟨sent, hmem, hp⟩
  · intro hno
    unfold get_prior_anns get_previous_sentences get_ann_sentence
    have : doc.sentences.find? (fun s => ann.overlap s) = none := by
      rw [List.find?_eq_none]
      intro s hs
      rw [hno s hs]
      simp
    rw [this]

/-- Witness for C10: a document whose only sentence lies left of the
annotation, which overlaps nothing. -/
theorem c10_witness :
    get_prior_anns (RecogniserDoc.mk [] [] [⟨"s", 0, 4, 0⟩]) ⟨"a", 6, 9, 1⟩ = none :=
  (c10_get_prior_anns_totality (RecogniserDoc.mk [] [] [⟨"s", 0, 4, 0⟩]) ⟨"a", 6, 9, 1⟩).2
    (by decide)

end NlpToPhenome
